import Mathlib

/-! A verification development for the block allocator of `src/src/mem.c`.

The C program keeps its heap as a chain of block headers that live inside the
memory obtained from `mmap`.  The embedding below follows `mem.c` function by
function.

* Pointers are natural numbers, `0` is `NULL`.
* Memory is observed at the granularity of block headers: `Mem` maps an address
  to the header stored there, `none` when no header was ever stored at that
  address.  A read of such an address is reported as `Err.fault` (the C program
  would read uninitialised or unmapped memory).  This view is exact as long as
  the stored headers share no byte and every store lands in mapped memory: in
  the C program a header is 17 bytes, two headers less than 17 bytes apart
  overlap, and a store to one changes the other, which `Mem.write` does not
  show.  The section `Bytes` embeds the program on bytes, without these
  limits; what depends on the effect of a store on a neighbouring header is
  settled there.
* `size_t` is a 64 bit unsigned integer: every `size_t` operation is reduced
  modulo `2 ^ 64`.  Pointer arithmetic is not reduced.
* The two loops of the program (`find_good_or_last`, `_free`) take a fuel
  argument; running out of fuel is reported as `Err.fuel`.
* The page source (`mmap`) is a script: the list of the results of the
  successive calls, consumed one per call; every call is logged.
* The headers `mem.h`, `mem_internals.h` and `util.h` are not part of the
  sources: the constants they define are the fields of `Params`, the small
  helpers they define are modelled from the specification.
-/

namespace MemAlloc

/-! ## Machine integers -/

/-- The number of values of a `size_t` (64 bit). -/
abbrev SIZE_MOD : Nat := 18446744073709551616

/-- Addition of two `size_t` values. -/
def size_add (a b : Nat) : Nat := (a + b) % SIZE_MOD

/-- Subtraction of two `size_t` values. -/
def size_sub (a b : Nat) : Nat := (a % SIZE_MOD + SIZE_MOD - b % SIZE_MOD) % SIZE_MOD

/-- Multiplication of two `size_t` values. -/
def size_mul (a b : Nat) : Nat := (a * b) % SIZE_MOD

/-- Modelled from the spec: `size_max` of the absent `util.h`, the "maximum of two sizes". -/
def size_max (a b : Nat) : Nat := if a ≥ b then a else b

/-- The value `MAP_FAILED`, that is `(void *) -1`, of `<sys/mman.h>`. -/
abbrev MAP_FAILED : Nat := 18446744073709551615

/-- The flag `MAP_FIXED_NOREPLACE` of `<sys/mman.h>`. -/
abbrev MAP_FIXED_NOREPLACE : Nat := 1048576

/-- The constant of `#define BLOCK_MIN_CAPACITY 24`. -/
abbrev BLOCK_MIN_CAPACITY : Nat := 24

/-! ## Data model -/

/-- Modelled from the spec: the constants of the absent headers and of the platform.
`H` is `offsetof(struct block_header, contents)`, `REGION_MIN_SIZE` the minimum size of a
region, `pagesize` the result of `getpagesize()`, `START_HEAP` the fixed address at which
`_malloc` expects the first block. -/
structure Params where
  H : Nat
  REGION_MIN_SIZE : Nat
  pagesize : Nat
  START_HEAP : Nat

/-- Modelled from the spec: `struct block_header` of the absent `mem_internals.h`, with the
fields `next` (`0` when this is the last block), `capacity` (the usable bytes, header
excluded) and `is_free`. -/
structure block_header where
  next : Nat
  capacity : Nat
  is_free : Bool
  deriving DecidableEq

/-- The headers stored in memory, by address. -/
abbrev Mem := Nat → Option block_header

/-- The memory in which no header is stored. -/
def Mem.empty : Mem := fun _ => none

/-- Store a header at an address; every other address keeps what it holds.  This is what a
store of the C program does to the headers that share no byte with the one stored; for
headers that overlap see the section `Bytes`. -/
def Mem.write (m : Mem) (addr : Nat) (h : block_header) : Mem :=
  fun a => if a = addr then some h else m a

/-- Why a run of the model stopped without a result. -/
inductive Err where
  | fault
  | fuel
  deriving DecidableEq

/-- Modelled from the spec: `struct region` of the absent `mem_internals.h`: the base
address, the mapped size, and whether the region landed at the address asked for (the field
`extends` of the source, a keyword here). -/
structure region where
  addr : Nat
  size : Nat
  extends_prev : Bool
  deriving DecidableEq

/-- Modelled from the spec: `REGION_INVALID`, the "explicit failure sentinel" of
`alloc_region`; it carries no memory, its address is `NULL`. -/
def REGION_INVALID : region := { addr := 0, size := 0, extends_prev := false }

/-- Modelled from the spec: `region_is_invalid` of the absent `mem_internals.h`. -/
def region_is_invalid (r : region) : Bool := r.addr == 0

/-- One call of the page source: the address hint, the length and the additional flags. -/
structure MapCall where
  addr : Nat
  length : Nat
  flags : Nat
  deriving DecidableEq

/-- The state of the program: the stored headers, the global `HEAP_START`, what the page
source will answer to the calls to come, and two ghost fields: the calls made to the page
source so far, and whether a split or a merge has gone ahead so far on a sum that left the
range of `size_t` (see `split_wraps` and `merge_wraps`). -/
structure State where
  mem : Mem
  HEAP_START : Nat
  pages : List Nat
  log : List MapCall
  wrapped : Bool

/-- The state before `heap_init`: nothing is stored, `HEAP_START` is `NULL`. -/
def State.start (pages : List Nat) : State :=
  { mem := Mem.empty, HEAP_START := 0, pages := pages, log := [], wrapped := false }

/-! ## Block layer -/

/-- Modelled from the spec: `size_from_capacity` of the absent `mem_internals.h`; the size of
a block is its capacity plus its header. -/
def size_from_capacity (P : Params) (cap : Nat) : Nat := size_add cap P.H

/-- Modelled from the spec: `capacity_from_size` of the absent `mem_internals.h`. -/
def capacity_from_size (P : Params) (sz : Nat) : Nat := size_sub sz P.H

/-- The function `block_is_big_enough`, on the header read at `block`. -/
def block_is_big_enough (query : Nat) (block : block_header) : Bool :=
  decide (block.capacity ≥ query)

/-- The function `pages_count`. -/
def pages_count (P : Params) (mem : Nat) : Nat :=
  size_add (mem / P.pagesize) (if mem % P.pagesize > 0 then 1 else 0)

/-- The function `round_pages`. -/
def round_pages (P : Params) (mem : Nat) : Nat := size_mul P.pagesize (pages_count P mem)

/-- The function `block_init`: a free block of size `block_sz` at `addr`. -/
def block_init (P : Params) (m : Mem) (addr block_sz next : Nat) : Mem :=
  m.write addr { next := next, capacity := capacity_from_size P block_sz, is_free := true }

/-- The function `region_actual_size`. -/
def region_actual_size (P : Params) (query : Nat) : Nat :=
  size_max (round_pages P query) P.REGION_MIN_SIZE

/-! ## Region manager -/

/-- The function `map_pages`: the next answer of the page source; `MAP_FAILED` once the
script is exhausted.  The call is logged. -/
def map_pages (s : State) (addr length additional_flags : Nat) : Nat × State :=
  let call : MapCall := { addr := addr, length := length, flags := additional_flags }
  match s.pages with
  | [] => (MAP_FAILED, { s with log := s.log ++ [call] })
  | r :: rest => (r, { s with pages := rest, log := s.log ++ [call] })

/-- The statement `if (HEAP_START == NULL) HEAP_START = reg_adr;` of `alloc_region`. -/
def record_heap_start (s : State) (reg_adr : Nat) : State :=
  if s.HEAP_START = 0 then { s with HEAP_START := reg_adr } else s

/-- The function `alloc_region`. -/
def alloc_region (P : Params) (s : State) (addr query : Nat) : region × State :=
  let query := region_actual_size P query
  let first := map_pages s addr query MAP_FIXED_NOREPLACE
  let s2 := record_heap_start first.2 first.1
  if first.1 = MAP_FAILED ∨ first.1 = 0 then
    let second := map_pages s2 addr query 0
    if second.1 = MAP_FAILED ∨ second.1 = 0 then
      (REGION_INVALID, second.2)
    else
      ({ addr := second.1, size := query, extends_prev := false },
        { second.2 with mem := block_init P second.2.mem second.1 query 0 })
  else
    ({ addr := first.1, size := query, extends_prev := true },
      { s2 with mem := block_init P s2.mem first.1 query 0 })

/-- The function `heap_init`. -/
def heap_init (P : Params) (s : State) (initial : Nat) : Nat × State :=
  let r := alloc_region P s s.HEAP_START initial
  if region_is_invalid r.1 then (0, r.2) else (r.1.addr, r.2)

/-! ## Splitter -/

/-- The function `block_splittable`, on the header read at `block`. -/
def block_splittable (P : Params) (block : block_header) (query : Nat) : Bool :=
  block.is_free &&
    decide (size_add (size_add query P.H) BLOCK_MIN_CAPACITY ≤ block.capacity)

/-- The function `split_block_addr`. -/
def split_block_addr (block new_size : Nat) : Nat := block + new_size

/-- The function `split_if_too_big`. -/
def split_if_too_big (P : Params) (m : Mem) (block query : Nat) : Except Err (Bool × Mem) :=
  let capacity_query := size_max BLOCK_MIN_CAPACITY query
  match m block with
  | none => .error .fault
  | some b =>
    if block_splittable P b capacity_query then
      let occupied_block_capacity := size_add query P.H
      let remaining_space := size_sub (size_from_capacity P b.capacity) occupied_block_capacity
      let next_block_header := split_block_addr block remaining_space
      let m1 := block_init P m next_block_header remaining_space b.next
      match m1 block with
      | none => .error .fault
      | some b1 => .ok (true, m1.write block { b1 with next := next_block_header })
    else
      .ok (false, m)

/-- Ghost: the split goes ahead although the sum `capacity_query + H + BLOCK_MIN_CAPACITY` of
its test `block_splittable` has left the range of `size_t`. -/
def split_wraps (P : Params) (m : Mem) (block query : Nat) : Bool :=
  match m block with
  | none => false
  | some b =>
    block_splittable P b (size_max BLOCK_MIN_CAPACITY query) &&
      decide (SIZE_MOD ≤ size_max BLOCK_MIN_CAPACITY query + P.H + BLOCK_MIN_CAPACITY)

/-! ## Coalescer -/

/-- The function `block_after`: the address that follows the contents of the block at `block`. -/
def block_after (P : Params) (block : Nat) (b : block_header) : Nat :=
  block + P.H + b.capacity

/-- The function `blocks_continuous`. -/
def blocks_continuous (P : Params) (fst : Nat) (f : block_header) (snd : Nat) : Bool :=
  snd == block_after P fst f

/-- The function `mergeable`. -/
def mergeable (P : Params) (fst : Nat) (f : block_header) (snd : Nat) (n : block_header) :
    Bool :=
  f.is_free && n.is_free && blocks_continuous P fst f snd

/-- The function `try_merge_with_next`.  The header of the successor is read only when the
block has a successor and is free, as the `&&` of `mergeable` does. -/
def try_merge_with_next (P : Params) (m : Mem) (block : Nat) : Except Err (Bool × Mem) :=
  match m block with
  | none => .error .fault
  | some b =>
    if b.next = 0 then .ok (false, m)
    else if b.is_free = false then .ok (false, m)
    else
      match m b.next with
      | none => .error .fault
      | some n =>
        if mergeable P block b b.next n then
          let m1 := m.write block
            { b with capacity := size_add b.capacity (size_from_capacity P n.capacity) }
          match m1 block with
          | none => .error .fault
          | some b1 =>
            match m1 b1.next with
            | none => .error .fault
            | some n1 => .ok (true, m1.write block { b1 with next := n1.next })
        else .ok (false, m)

/-- Ghost: the merge goes ahead although the sum of the capacity of the block and of the size
of its successor has left the range of `size_t`. -/
def merge_wraps (P : Params) (m : Mem) (block : Nat) : Bool :=
  match m block with
  | none => false
  | some b =>
    match m b.next with
    | none => false
    | some n =>
      decide (b.next ≠ 0) && mergeable P block b b.next n &&
        decide (SIZE_MOD ≤ b.capacity + P.H + n.capacity)

/-! ## Search engine -/

/-- The `type` of a `struct block_search_result`. -/
inductive bsr_type where
  | BSR_FOUND_GOOD_BLOCK
  | BSR_REACHED_END_NOT_FOUND
  | BSR_CORRUPTED
  deriving DecidableEq

/-- The type `struct block_search_result`. -/
structure block_search_result where
  type : bsr_type
  block : Nat
  deriving DecidableEq

/-- The `while (current)` loop of `find_good_or_last`.  The capacity test reads the header at
`block`, the start of the search, as the source does (`block_is_big_enough(sz, block)`);
the header at `current` is read in every iteration, for `is_free` or for `next`. -/
def find_loop (m : Mem) (block sz : Nat) : Nat → Nat → Nat → Except Err block_search_result
  | 0, current, last =>
    if current = 0 then .ok { type := .BSR_REACHED_END_NOT_FOUND, block := last }
    else .error .fuel
  | fuel + 1, current, last =>
    if current = 0 then .ok { type := .BSR_REACHED_END_NOT_FOUND, block := last }
    else
      match m block with
      | none => .error .fault
      | some b =>
        match m current with
        | none => .error .fault
        | some c =>
          if block_is_big_enough sz b && c.is_free then
            .ok { type := .BSR_FOUND_GOOD_BLOCK, block := current }
          else find_loop m block sz fuel c.next current

/-- The function `find_good_or_last`. -/
def find_good_or_last (fuel : Nat) (m : Mem) (block sz : Nat) :
    Except Err block_search_result :=
  if block = 0 then .ok { type := .BSR_CORRUPTED, block := 0 }
  else find_loop m block sz fuel block 0

/-! ## Allocator -/

/-- The function `try_memalloc_existing`.  The split is applied to `block`, the start of the
search, as the source does. -/
def try_memalloc_existing (P : Params) (fuel : Nat) (s : State) (query block : Nat) :
    Except Err (block_search_result × State) :=
  match find_good_or_last fuel s.mem block query with
  | .error e => .error e
  | .ok result =>
    if result.type = .BSR_FOUND_GOOD_BLOCK then
      match split_if_too_big P s.mem block query with
      | .error e => .error e
      | .ok (_, m1) =>
        .ok (result, { s with mem := m1, wrapped := s.wrapped || split_wraps P s.mem block query })
    else .ok (result, s)

/-- The function `grow_heap`. -/
def grow_heap (P : Params) (s : State) (last query : Nat) : Except Err (Nat × State) :=
  match s.mem last with
  | none => .error .fault
  | some l =>
    let size := size_from_capacity P l.capacity
    let new_address := last + size
    let r := alloc_region P s new_address query
    let new_block := r.1.addr
    let s1 := r.2
    match s1.mem last with
    | none => .error .fault
    | some l1 =>
      let m2 := s1.mem.write last { l1 with next := new_block }
      match try_merge_with_next P m2 last with
      | .error e => .error e
      | .ok (true, m3) =>
        .ok (last, { s1 with mem := m3, wrapped := s1.wrapped || merge_wraps P m2 last })
      | .ok (false, m3) =>
        match m3 last with
        | none => .error .fault
        | some l3 => .ok (l3.next, { s1 with mem := m3 })

/-- The assignment `result.block->is_free = false` that ends `memalloc`, and its `return`. -/
def mark_allocated (s : State) (block : Nat) : Except Err (Nat × State) :=
  match s.mem block with
  | none => .error .fault
  | some b => .ok (block, { s with mem := s.mem.write block { b with is_free := false } })

/-- The function `memalloc`. -/
def memalloc (P : Params) (fuel : Nat) (s : State) (query heap_start : Nat) :
    Except Err (Nat × State) :=
  let query := size_max query BLOCK_MIN_CAPACITY
  match try_memalloc_existing P fuel s query heap_start with
  | .error e => .error e
  | .ok (result, s1) =>
    match result.type with
    | .BSR_FOUND_GOOD_BLOCK => mark_allocated s1 result.block
    | .BSR_REACHED_END_NOT_FOUND =>
      match grow_heap P s1 result.block query with
      | .error e => .error e
      | .ok (block, s2) =>
        if block = 0 then .ok (0, s2)
        else
          match split_if_too_big P s2.mem block query with
          | .error e => .error e
          | .ok (_, m3) =>
            mark_allocated
              { s2 with mem := m3, wrapped := s2.wrapped || split_wraps P s2.mem block query }
              block
    | .BSR_CORRUPTED => .ok (0, s1)

/-- The function `_malloc`: the address of the contents of the block, or `NULL`. -/
def _malloc (P : Params) (fuel : Nat) (s : State) (query : Nat) : Except Err (Nat × State) :=
  match memalloc P fuel s query P.START_HEAP with
  | .error e => .error e
  | .ok (addr, s1) => if addr ≠ 0 then .ok (addr + P.H, s1) else .ok (0, s1)

/-- The function `block_get_header`. -/
def block_get_header (P : Params) (contents : Nat) : Nat := contents - P.H

/-- The loop `while (try_merge_with_next(header));` of `_free`. -/
def free_loop (P : Params) (header : Nat) : Nat → State → Except Err State
  | 0, _ => .error .fuel
  | fuel + 1, s =>
    match try_merge_with_next P s.mem header with
    | .error e => .error e
    | .ok (true, m1) =>
      free_loop P header fuel
        { s with mem := m1, wrapped := s.wrapped || merge_wraps P s.mem header }
    | .ok (false, m1) => .ok { s with mem := m1 }

/-- The function `_free`. -/
def _free (P : Params) (fuel : Nat) (s : State) (mem : Nat) : Except Err State :=
  if mem = 0 then .ok s
  else
    let header := block_get_header P mem
    match s.mem header with
    | none => .error .fault
    | some h =>
      free_loop P header fuel { s with mem := s.mem.write header { h with is_free := true } }

/-! ## Observation of runs -/

/-- The parameters of the usual build: a header of 17 bytes, pages of 4096 bytes, regions of
at least two pages, the heap at `0x04040000`. -/
def stdParams : Params :=
  { H := 17, REGION_MIN_SIZE := 8192, pagesize := 4096, START_HEAP := 67371008 }

/-- The pointer a call returned, `none` when the call did not return. -/
def ptr_of (r : Except Err (Nat × State)) : Option Nat :=
  match r with
  | .ok (p, _) => some p
  | .error _ => none

/-- The state a call left, the given state when the call did not return. -/
def state_of (s0 : State) (r : Except Err (Nat × State)) : State :=
  match r with
  | .ok (_, s) => s
  | .error _ => s0

/-- The state `_free` left, the given state when it did not return. -/
def freed (s0 : State) (r : Except Err State) : State :=
  match r with
  | .ok s => s
  | .error _ => s0

/-- The error of a run, `none` when it returned. -/
def err_of {α : Type} (r : Except Err α) : Option Err :=
  match r with
  | .ok _ => none
  | .error e => some e

/-- Whether `split_if_too_big` or `try_merge_with_next` reported a change, `none` when the
call did not return. -/
def flag_of (r : Except Err (Bool × Mem)) : Option Bool :=
  match r with
  | .ok (b, _) => some b
  | .error _ => none

/-- The memory `split_if_too_big` or `try_merge_with_next` left, the given memory when the
call did not return. -/
def mem_of (m0 : Mem) (r : Except Err (Bool × Mem)) : Mem :=
  match r with
  | .ok (_, m) => m
  | .error _ => m0

/-! ## Predicates on heaps -/

/-- The list `l` is the chain of blocks that starts at `a`: every address of the list is not
`NULL` and holds a header, whose `next` is the following address of the list, and the last
`next` is `NULL`. -/
def is_chain (m : Mem) : Nat → List Nat → Bool
  | a, [] => a == 0
  | a, x :: xs =>
    a == x && a != 0 &&
      match m a with
      | none => false
      | some h => is_chain m h.next xs

/-- The footprints `[a, a + H + capacity)` of the blocks at `a` and at `b` are disjoint. -/
def footprint_disjoint (P : Params) (a : Nat) (ha : block_header) (b : Nat)
    (hb : block_header) : Prop :=
  a + P.H + ha.capacity ≤ b ∨ b + P.H + hb.capacity ≤ a

/-! ## Scenarios -/

/-- Scenario 1: the page source refuses the first, fixed, mapping of `heap_init` (the hint is
`HEAP_START`, still `NULL`) and places the region at `START_HEAP`. -/
def sc1_s0 : State := State.start [MAP_FAILED, stdParams.START_HEAP]

/-- Scenario 1: the state after `heap_init(4096)`. -/
def sc1_s1 : State := (heap_init stdParams sc1_s0 4096).2

/-- Scenario 1: the call `_malloc(10)`. -/
def sc1_first : Except Err (Nat × State) := _malloc stdParams 8 sc1_s1 10

/-- Scenario 1: the state after `_malloc(10)`. -/
def sc1_s2 : State := state_of sc1_s1 sc1_first

/-- Scenario 1: the call `_malloc(8150)` that follows. -/
def sc1_second : Except Err (Nat × State) := _malloc stdParams 8 sc1_s2 8150

/-- Scenario 2: the address at which the page source places the second region. -/
def sc2_R : Nat := 83886080

/-- Scenario 2: `heap_init(4096)` as in scenario 1; the two later growths ask for a fixed
mapping at an address that is not a multiple of the page size, which the page source
refuses, and the regions are placed at `sc2_R` and at `0x6000000`. -/
def sc2_s0 : State :=
  State.start [MAP_FAILED, stdParams.START_HEAP, MAP_FAILED, sc2_R, MAP_FAILED, 100663296]

/-- Scenario 2: the state after `heap_init(4096)` and `_malloc(10)`. -/
def sc2_s2 : State :=
  state_of sc2_s0 (_malloc stdParams 8 (heap_init stdParams sc2_s0 4096).2 10)

/-- Scenario 2: the call `_malloc(20000)`. -/
def sc2_big : Except Err (Nat × State) := _malloc stdParams 8 sc2_s2 20000

/-- Scenario 2: the state after `_malloc(20000)`. -/
def sc2_s3 : State := state_of sc2_s2 sc2_big

/-- Scenario 2: the release of the pointer `_malloc(20000)` returned. -/
def sc2_release : Except Err State := _free stdParams 8 sc2_s3 (sc2_R + stdParams.H)

/-- Scenario 2: the state after the release. -/
def sc2_s4 : State := freed sc2_s3 sc2_release

/-- Scenario 2: the call `_malloc(20000)` right after the release. -/
def sc2_again : Except Err (Nat × State) := _malloc stdParams 8 sc2_s4 20000

/-- Scenario 3: a memory that holds one free block of capacity 8175 at `START_HEAP`. -/
def sc3_mem : Mem := Mem.empty.write stdParams.START_HEAP ⟨0, 8175, true⟩

/-- Scenario 3: the call `split_if_too_big(block, 10)` on that block. -/
def sc3_split : Except Err (Bool × Mem) :=
  split_if_too_big stdParams sc3_mem stdParams.START_HEAP 10

/-- Scenario 4: a page source that refuses every mapping, and the first `heap_init(4096)`. -/
def sc4_init : Nat × State := heap_init stdParams (State.start []) 4096

/-- Scenario 5: after `heap_init(4096)` as in scenario 1, the call `_malloc(5000)`. -/
def sc5_first : Except Err (Nat × State) := _malloc stdParams 8 sc1_s1 5000

/-- Scenario 5: the state after the first `_malloc(5000)`. -/
def sc5_s2 : State := state_of sc1_s1 sc5_first

/-- Scenario 5: the second `_malloc(5000)`. -/
def sc5_second : Except Err (Nat × State) := _malloc stdParams 8 sc5_s2 5000

/-- Scenario 7: the fresh heap of scenario 1 with a page source that places the next region at
`START_HEAP + 8192`, right after the first block. -/
def sc7_s : State := { sc1_s1 with pages := [stdParams.START_HEAP + 8192] }

/-- Where the region of `alloc_region` lands for a script of the page source: at the first
answer when it is neither `MAP_FAILED` nor `NULL`, else at the second answer when that one
is neither; nowhere when both mappings are refused. -/
def landing (pages : List Nat) : Option Nat :=
  if pages.headD MAP_FAILED = MAP_FAILED ∨ pages.headD MAP_FAILED = 0 then
    if pages.tail.headD MAP_FAILED = MAP_FAILED ∨ pages.tail.headD MAP_FAILED = 0 then none
    else some (pages.tail.headD MAP_FAILED)
  else some (pages.headD MAP_FAILED)

/-- The byte ranges `[p, p + n)` and `[q, q + k)` are disjoint. -/
def ranges_disjoint (p n q k : Nat) : Prop := p + n ≤ q ∨ q + k ≤ p

/-! ## The program on bytes

The embedding above keeps one header per address.  In the C program a header is 17 bytes of
memory, and the split places its tail at any byte offset, so two headers can share bytes.
The embedding of this section follows `mem.c` on bytes: memory maps an address to its byte,
`none` where nothing is mapped; a header field is read and stored through its bytes, in
little endian order; a read or a store that touches an unmapped byte is `Err.fault`. -/

namespace Bytes

/-- The bytes of memory by address, `none` where nothing is mapped. -/
abbrev Mem := Nat → Option Nat

/-- The memory in which nothing is mapped. -/
def unmapped : Mem := fun _ => none

/-- The memory after `mmap` placed `length` zero bytes at `addr`. -/
def map_zero (m : Mem) (addr length : Nat) : Mem :=
  fun a => if addr ≤ a ∧ a < addr + length then some 0 else m a

/-- Read `n` bytes at `a` as a little endian number. -/
def load (m : Mem) : Nat → Nat → Except Err Nat
  | _, 0 => .ok 0
  | a, n + 1 =>
    match m a with
    | none => .error .fault
    | some b =>
      match load m (a + 1) n with
      | .error e => .error e
      | .ok rest => .ok (b + 256 * rest)

/-- Whether the `n` bytes at `a` are mapped. -/
def mapped (m : Mem) : Nat → Nat → Bool
  | _, 0 => true
  | a, n + 1 => (m a).isSome && mapped m (a + 1) n

/-- Store the `n` low bytes of `v` at `a`, in little endian order. -/
def store (m : Mem) (a n v : Nat) : Except Err Mem :=
  if mapped m a n then
    .ok (fun x => if a ≤ x ∧ x < a + n then some (v / 256 ^ (x - a) % 256) else m x)
  else .error .fault

/-- Modelled from the spec: the layout of `struct block_header` of the absent
`mem_internals.h` on a 64 bit target, the fields in the order the spec lists them: the
pointer `next` at offset 0, the `size_t` `capacity` at offset 8, the `bool` `is_free` at
offset 16; the contents follow at offset `H` (17 in `stdParams`). -/
abbrev OFFSET_CAPACITY : Nat := 8

/-- Modelled from the spec: the offset of `is_free` in `struct block_header`. -/
abbrev OFFSET_IS_FREE : Nat := 16

/-- Read `block->next`. -/
def get_next (m : Mem) (block : Nat) : Except Err Nat := load m block 8

/-- Read `block->capacity.bytes`. -/
def get_capacity (m : Mem) (block : Nat) : Except Err Nat := load m (block + OFFSET_CAPACITY) 8

/-- Read `block->is_free`. -/
def get_is_free (m : Mem) (block : Nat) : Except Err Bool :=
  match load m (block + OFFSET_IS_FREE) 1 with
  | .error e => .error e
  | .ok v => .ok (v != 0)

/-- Store `block->next`. -/
def set_next (m : Mem) (block v : Nat) : Except Err Mem := store m block 8 v

/-- Store `block->capacity.bytes`. -/
def set_capacity (m : Mem) (block v : Nat) : Except Err Mem :=
  store m (block + OFFSET_CAPACITY) 8 v

/-- Store `block->is_free`. -/
def set_is_free (m : Mem) (block : Nat) (v : Bool) : Except Err Mem :=
  store m (block + OFFSET_IS_FREE) 1 (if v then 1 else 0)

/-- The state of the program on bytes: the memory, the global `HEAP_START`, what the page
source will answer to the calls to come, and the calls made so far. -/
structure State where
  mem : Mem
  HEAP_START : Nat
  pages : List Nat
  log : List MapCall

/-- The state before `heap_init`: nothing is mapped, `HEAP_START` is `NULL`. -/
def State.start (pages : List Nat) : State :=
  { mem := unmapped, HEAP_START := 0, pages := pages, log := [] }

/-- The function `block_init`: the three fields of a free block of size `block_sz` are stored
at `addr`. -/
def block_init (P : Params) (m : Mem) (addr block_sz next : Nat) : Except Err Mem :=
  match set_next m addr next with
  | .error e => .error e
  | .ok m1 =>
    match set_capacity m1 addr (capacity_from_size P block_sz) with
    | .error e => .error e
    | .ok m2 => set_is_free m2 addr true

/-- The function `map_pages`: the next answer of the page source, `MAP_FAILED` once the
script is exhausted; an answer other than `MAP_FAILED` maps `length` zero bytes there.  The
call is logged. -/
def map_pages (s : State) (addr length additional_flags : Nat) : Nat × State :=
  let call : MapCall := { addr := addr, length := length, flags := additional_flags }
  match s.pages with
  | [] => (MAP_FAILED, { s with log := s.log ++ [call] })
  | r :: rest =>
    (r, { s with
      mem := if r = MAP_FAILED then s.mem else map_zero s.mem r length,
      pages := rest, log := s.log ++ [call] })

/-- The statement `if (HEAP_START == NULL) HEAP_START = reg_adr;` of `alloc_region`. -/
def record_heap_start (s : State) (reg_adr : Nat) : State :=
  if s.HEAP_START = 0 then { s with HEAP_START := reg_adr } else s

/-- The function `alloc_region`. -/
def alloc_region (P : Params) (s : State) (addr query : Nat) : Except Err (region × State) :=
  let query := region_actual_size P query
  let first := map_pages s addr query MAP_FIXED_NOREPLACE
  let s2 := record_heap_start first.2 first.1
  if first.1 = MAP_FAILED ∨ first.1 = 0 then
    let second := map_pages s2 addr query 0
    if second.1 = MAP_FAILED ∨ second.1 = 0 then
      .ok (REGION_INVALID, second.2)
    else
      match block_init P second.2.mem second.1 query 0 with
      | .error e => .error e
      | .ok m =>
        .ok ({ addr := second.1, size := query, extends_prev := false },
          { second.2 with mem := m })
  else
    match block_init P s2.mem first.1 query 0 with
    | .error e => .error e
    | .ok m => .ok ({ addr := first.1, size := query, extends_prev := true }, { s2 with mem := m })

/-- The function `heap_init`. -/
def heap_init (P : Params) (s : State) (initial : Nat) : Except Err (Nat × State) :=
  match alloc_region P s s.HEAP_START initial with
  | .error e => .error e
  | .ok (r, s1) => if region_is_invalid r then .ok (0, s1) else .ok (r.addr, s1)

/-- The function `block_splittable`: `is_free` is read first, the capacity only when the
block is free. -/
def block_splittable (P : Params) (m : Mem) (block query : Nat) : Except Err Bool :=
  match get_is_free m block with
  | .error e => .error e
  | .ok false => .ok false
  | .ok true =>
    match get_capacity m block with
    | .error e => .error e
    | .ok cap => .ok (decide (size_add (size_add query P.H) BLOCK_MIN_CAPACITY ≤ cap))

/-- The function `split_if_too_big`. -/
def split_if_too_big (P : Params) (m : Mem) (block query : Nat) : Except Err (Bool × Mem) :=
  let capacity_query := size_max BLOCK_MIN_CAPACITY query
  match block_splittable P m block capacity_query with
  | .error e => .error e
  | .ok false => .ok (false, m)
  | .ok true =>
    match get_capacity m block with
    | .error e => .error e
    | .ok cap =>
      let occupied_block_capacity := size_add query P.H
      let remaining_space := size_sub (size_from_capacity P cap) occupied_block_capacity
      let next_block_header := split_block_addr block remaining_space
      match get_next m block with
      | .error e => .error e
      | .ok nx =>
        match block_init P m next_block_header remaining_space nx with
        | .error e => .error e
        | .ok m1 =>
          match set_next m1 block next_block_header with
          | .error e => .error e
          | .ok m2 => .ok (true, m2)

/-- The function `mergeable`, with `blocks_continuous` and `block_after`: `fst->is_free`,
then `snd->is_free`, then the capacity of `fst` for the address after its contents. -/
def mergeable (P : Params) (m : Mem) (fst snd : Nat) : Except Err Bool :=
  match get_is_free m fst with
  | .error e => .error e
  | .ok false => .ok false
  | .ok true =>
    match get_is_free m snd with
    | .error e => .error e
    | .ok false => .ok false
    | .ok true =>
      match get_capacity m fst with
      | .error e => .error e
      | .ok cap => .ok (snd == fst + P.H + cap)

/-- The two assignments that end `try_merge_with_next`:
`block->capacity.bytes += size_from_capacity(block->next->capacity).bytes;` and
`block->next = block->next->next;`, each reading the memory the one before left. -/
def absorb_next (P : Params) (m : Mem) (block : Nat) : Except Err Mem :=
  match get_next m block with
  | .error e => .error e
  | .ok nx =>
    match get_capacity m nx with
    | .error e => .error e
    | .ok ncap =>
      match get_capacity m block with
      | .error e => .error e
      | .ok cap =>
        match set_capacity m block (size_add cap (size_from_capacity P ncap)) with
        | .error e => .error e
        | .ok m1 =>
          match get_next m1 block with
          | .error e => .error e
          | .ok nx1 =>
            match get_next m1 nx1 with
            | .error e => .error e
            | .ok nn => set_next m1 block nn

/-- The function `try_merge_with_next`. -/
def try_merge_with_next (P : Params) (m : Mem) (block : Nat) : Except Err (Bool × Mem) :=
  match get_next m block with
  | .error e => .error e
  | .ok nx =>
    if nx = 0 then .ok (false, m)
    else
      match mergeable P m block nx with
      | .error e => .error e
      | .ok false => .ok (false, m)
      | .ok true =>
        match absorb_next P m block with
        | .error e => .error e
        | .ok m1 => .ok (true, m1)

/-- The `while (current)` loop of `find_good_or_last`: the capacity is read at `block`, the
start of the search; `current->is_free` is read only when that capacity is enough. -/
def find_loop (m : Mem) (block sz : Nat) : Nat → Nat → Nat → Except Err block_search_result
  | 0, current, last =>
    if current = 0 then .ok { type := .BSR_REACHED_END_NOT_FOUND, block := last }
    else .error .fuel
  | fuel + 1, current, last =>
    if current = 0 then .ok { type := .BSR_REACHED_END_NOT_FOUND, block := last }
    else
      match get_capacity m block with
      | .error e => .error e
      | .ok cap =>
        match (if cap ≥ sz then get_is_free m current else .ok false) with
        | .error e => .error e
        | .ok true => .ok { type := .BSR_FOUND_GOOD_BLOCK, block := current }
        | .ok false =>
          match get_next m current with
          | .error e => .error e
          | .ok nx => find_loop m block sz fuel nx current

/-- The function `find_good_or_last`. -/
def find_good_or_last (fuel : Nat) (m : Mem) (block sz : Nat) :
    Except Err block_search_result :=
  if block = 0 then .ok { type := .BSR_CORRUPTED, block := 0 }
  else find_loop m block sz fuel block 0

/-- The function `try_memalloc_existing`: the split is applied to `block`, the start of the
search. -/
def try_memalloc_existing (P : Params) (fuel : Nat) (m : Mem) (query block : Nat) :
    Except Err (block_search_result × Mem) :=
  match find_good_or_last fuel m block query with
  | .error e => .error e
  | .ok result =>
    if result.type = .BSR_FOUND_GOOD_BLOCK then
      match split_if_too_big P m block query with
      | .error e => .error e
      | .ok (_, m1) => .ok (result, m1)
    else .ok (result, m)

/-- The statements of `grow_heap` up to `last->next = new_block;`: the size of `last` is read,
the new region is asked for at the address after `last`, and its address is stored as the
`next` of `last`.  The result is the state in which `grow_heap` calls
`try_merge_with_next(last)`. -/
def grow_heap_link (P : Params) (s : State) (last query : Nat) : Except Err State :=
  match get_capacity s.mem last with
  | .error e => .error e
  | .ok cap =>
    let size := size_from_capacity P cap
    let new_address := last + size
    match alloc_region P s new_address query with
    | .error e => .error e
    | .ok (r, s1) =>
      let new_block := r.addr
      match set_next s1.mem last new_block with
      | .error e => .error e
      | .ok m2 => .ok { s1 with mem := m2 }

/-- The function `grow_heap`. -/
def grow_heap (P : Params) (s : State) (last query : Nat) : Except Err (Nat × State) :=
  match grow_heap_link P s last query with
  | .error e => .error e
  | .ok s1 =>
    match try_merge_with_next P s1.mem last with
    | .error e => .error e
    | .ok (true, m3) => .ok (last, { s1 with mem := m3 })
    | .ok (false, m3) =>
      match get_next m3 last with
      | .error e => .error e
      | .ok nx => .ok (nx, { s1 with mem := m3 })

/-- The assignment `result.block->is_free = false` that ends `memalloc`, and its `return`. -/
def mark_allocated (s : State) (block : Nat) : Except Err (Nat × State) :=
  match set_is_free s.mem block false with
  | .error e => .error e
  | .ok m => .ok (block, { s with mem := m })

/-- The function `memalloc`. -/
def memalloc (P : Params) (fuel : Nat) (s : State) (query heap_start : Nat) :
    Except Err (Nat × State) :=
  let query := size_max query BLOCK_MIN_CAPACITY
  match try_memalloc_existing P fuel s.mem query heap_start with
  | .error e => .error e
  | .ok (result, m1) =>
    match result.type with
    | .BSR_FOUND_GOOD_BLOCK => mark_allocated { s with mem := m1 } result.block
    | .BSR_REACHED_END_NOT_FOUND =>
      match grow_heap P { s with mem := m1 } result.block query with
      | .error e => .error e
      | .ok (block, s2) =>
        if block = 0 then .ok (0, s2)
        else
          match split_if_too_big P s2.mem block query with
          | .error e => .error e
          | .ok (_, m3) => mark_allocated { s2 with mem := m3 } block
    | .BSR_CORRUPTED => .ok (0, { s with mem := m1 })

/-- The function `_malloc`. -/
def _malloc (P : Params) (fuel : Nat) (s : State) (query : Nat) : Except Err (Nat × State) :=
  match memalloc P fuel s query P.START_HEAP with
  | .error e => .error e
  | .ok (addr, s1) => if addr ≠ 0 then .ok (addr + P.H, s1) else .ok (0, s1)

/-- The loop `while (try_merge_with_next(header));` of `_free`. -/
def free_loop (P : Params) (header : Nat) : Nat → Mem → Except Err Mem
  | 0, _ => .error .fuel
  | fuel + 1, m =>
    match try_merge_with_next P m header with
    | .error e => .error e
    | .ok (true, m1) => free_loop P header fuel m1
    | .ok (false, m1) => .ok m1

/-- The function `_free`. -/
def _free (P : Params) (fuel : Nat) (s : State) (mem : Nat) : Except Err State :=
  if mem = 0 then .ok s
  else
    let header := block_get_header P mem
    match set_is_free s.mem header true with
    | .error e => .error e
    | .ok m1 =>
      match free_loop P header fuel m1 with
      | .error e => .error e
      | .ok m2 => .ok { s with mem := m2 }

/-- The pointer a call returned, `none` when the call did not return. -/
def ptr_of (r : Except Err (Nat × State)) : Option Nat :=
  match r with
  | .ok (p, _) => some p
  | .error _ => none

/-- The state a call left, the given state when the call did not return. -/
def state_of (s0 : State) (r : Except Err (Nat × State)) : State :=
  match r with
  | .ok (_, s) => s
  | .error _ => s0

/-- The state `_free` or `grow_heap_link` left, the given state when the call did not
return. -/
def freed (s0 : State) (r : Except Err State) : State :=
  match r with
  | .ok s => s
  | .error _ => s0

/-- Whether `try_merge_with_next` reported a merge, `none` when the call did not return. -/
def flag_of (r : Except Err (Bool × Mem)) : Option Bool :=
  match r with
  | .ok (b, _) => some b
  | .error _ => none

/-- The memory `try_merge_with_next` left, the given memory when the call did not return. -/
def mem_of (m0 : Mem) (r : Except Err (Bool × Mem)) : Mem :=
  match r with
  | .ok (_, m) => m
  | .error _ => m0

/-- The value a read returned, `none` when it faulted. -/
def val_of {α : Type} (r : Except Err α) : Option α :=
  match r with
  | .ok v => some v
  | .error _ => none

end Bytes

/-- Scenario 8, on bytes: `heap_init(4096)` as in scenario 1. -/
def sc8_s1 : Bytes.State :=
  Bytes.state_of (Bytes.State.start [])
    (Bytes.heap_init stdParams (Bytes.State.start [MAP_FAILED, stdParams.START_HEAP]) 4096)

/-- Scenario 8: the call `p = _malloc(8000)`. -/
def sc8_first : Except Err (Nat × Bytes.State) := Bytes._malloc stdParams 8 sc8_s1 8000

/-- Scenario 8: the state after `_malloc(8000)` and `_free(p)`. -/
def sc8_s3 : Bytes.State :=
  Bytes.freed sc8_s1
    (Bytes._free stdParams 8 (Bytes.state_of sc8_s1 sc8_first)
      (stdParams.START_HEAP + stdParams.H))

/-- Scenario 8: the call `_malloc(8008)` that follows. -/
def sc8_second : Except Err (Nat × Bytes.State) := Bytes._malloc stdParams 8 sc8_s3 8008

/-- Scenario 8: the state after `_malloc(8008)`. -/
def sc8_s4 : Bytes.State := Bytes.state_of sc8_s3 sc8_second

/-- Scenario 9, on bytes: `heap_init(4096)` as in scenario 1, with a page source that will
place the next region at `START_HEAP + 8192`. -/
def sc9_s1 : Bytes.State :=
  Bytes.state_of (Bytes.State.start [])
    (Bytes.heap_init stdParams
      (Bytes.State.start [MAP_FAILED, stdParams.START_HEAP, stdParams.START_HEAP + 8192]) 4096)

/-- Scenario 9: the call `p = _malloc(4079)`. -/
def sc9_first : Except Err (Nat × Bytes.State) := Bytes._malloc stdParams 8 sc9_s1 4079

/-- Scenario 9: the state after `_malloc(4079)` and `_free(p)`. -/
def sc9_s3 : Bytes.State :=
  Bytes.freed sc9_s1
    (Bytes._free stdParams 8 (Bytes.state_of sc9_s1 sc9_first)
      (stdParams.START_HEAP + stdParams.H))

/-- Scenario 9: the call `_malloc(4089)` that follows. -/
def sc9_second : Except Err (Nat × Bytes.State) := Bytes._malloc stdParams 8 sc9_s3 4089

/-- Scenario 9: the call `_malloc(4079)` after it. -/
def sc9_third : Except Err (Nat × Bytes.State) :=
  Bytes._malloc stdParams 8 (Bytes.state_of sc9_s3 sc9_second) 4079

/-- Scenario 9: the state after these five calls. -/
def sc9_s5 : Bytes.State := Bytes.state_of sc9_s3 sc9_third

/-- Scenario 9: the call `_malloc(20000)` that follows. -/
def sc9_fourth : Except Err (Nat × Bytes.State) := Bytes._malloc stdParams 8 sc9_s5 20000

/-- Scenario 9: inside `_malloc(20000)` the search misses with the last block, at
`START_HEAP + 4096`, and `grow_heap` maps the new region and links it; this is the memory in
which `grow_heap` then calls `try_merge_with_next` on that block. -/
def sc9_pre : Bytes.Mem :=
  (Bytes.freed sc9_s5
    (Bytes.grow_heap_link stdParams sc9_s5 (stdParams.START_HEAP + 4096) 20000)).mem

/-- Scenario 9: the call `try_merge_with_next(START_HEAP + 4096)` of `grow_heap`. -/
def sc9_merge : Except Err (Bool × Bytes.Mem) :=
  Bytes.try_merge_with_next stdParams sc9_pre (stdParams.START_HEAP + 4096)

/-! # Theorems -/

/-- C1, the code against the claim: after `heap_init(4096)` and `_malloc(10)`, the call
`_malloc(8150)` returns the contents of the block at `START_HEAP + 8151`, and the capacity
of that block is 8134, less than the 8150 bytes asked for. -/
theorem C1_malloc_returns_block_below_request :
    ptr_of sc1_second = some (stdParams.START_HEAP + 8151 + stdParams.H) ∧
    (state_of sc1_s2 sc1_second).mem (stdParams.START_HEAP + 8151) = some ⟨0, 8134, false⟩ ∧
    ¬ (size_max 8150 BLOCK_MIN_CAPACITY ≤ 8134) := by
  decide

/-- C2, the code against the claim: after `heap_init(4096)` and `_malloc(10)` the chain is
made of the block at `START_HEAP` (capacity 8175) and of the block at `START_HEAP + 8151`
(capacity 8134), and the footprints of these two blocks are not disjoint. -/
theorem C2_split_leaves_overlapping_blocks :
    ptr_of sc1_first = some (stdParams.START_HEAP + stdParams.H) ∧
    is_chain sc1_s2.mem stdParams.START_HEAP
      [stdParams.START_HEAP, stdParams.START_HEAP + 8151] = true ∧
    sc1_s2.mem stdParams.START_HEAP = some ⟨stdParams.START_HEAP + 8151, 8175, false⟩ ∧
    sc1_s2.mem (stdParams.START_HEAP + 8151) = some ⟨0, 8134, true⟩ ∧
    ¬ footprint_disjoint stdParams stdParams.START_HEAP
        ⟨stdParams.START_HEAP + 8151, 8175, false⟩ (stdParams.START_HEAP + 8151)
        ⟨0, 8134, true⟩ := by
  simp only [footprint_disjoint]
  decide

/-- C3, the code against the claim: in scenario 2 the pointer `p = sc2_R + H` is returned by
`_malloc(20000)`; after `_free(p)` its block is free with capacity 20463, yet the search of
the `_malloc(20000)` that follows reports `BSR_REACHED_END_NOT_FOUND` and the call asks the
page source for a new region (two more calls are logged). -/
theorem C3_release_then_allocate_grows_heap :
    ptr_of sc2_big = some (sc2_R + stdParams.H) ∧
    err_of sc2_release = none ∧
    sc2_s4.mem sc2_R = some ⟨sc2_R + 463, 20463, true⟩ ∧
    err_of sc2_again = none ∧
    find_good_or_last 8 sc2_s4.mem stdParams.START_HEAP (size_max 20000 BLOCK_MIN_CAPACITY)
      = .ok ⟨.BSR_REACHED_END_NOT_FOUND, sc2_R + 463⟩ ∧
    (state_of sc2_s4 sc2_again).log.length = sc2_s4.log.length + 2 := by
  refine ⟨by decide, by decide, by decide, by decide, by rfl, by decide⟩

/-- C4, the code against the claim: `split_if_too_big(block, 10)` on a free block of capacity
8175 returns true, the capacity of the head is still 8175 (not `max(10, 24) = 24`), and the
tail, placed at `block + 8165`, is free with capacity 8148 (not `8175 - 24 - 17 = 8134`). -/
theorem C4_split_keeps_head_capacity :
    size_max 10 BLOCK_MIN_CAPACITY + stdParams.H + BLOCK_MIN_CAPACITY ≤ 8175 ∧
    flag_of sc3_split = some true ∧
    mem_of sc3_mem sc3_split stdParams.START_HEAP
      = some ⟨stdParams.START_HEAP + 8165, 8175, true⟩ ∧
    mem_of sc3_mem sc3_split (stdParams.START_HEAP + 8165) = some ⟨0, 8148, true⟩ := by
  decide

/-! ## The search -/

/-- The loop of the search never reports `BSR_CORRUPTED`. -/
theorem find_loop_type (m : Mem) (block sz : Nat) :
    ∀ (fuel current last : Nat) (r : block_search_result),
      find_loop m block sz fuel current last = .ok r → r.type ≠ .BSR_CORRUPTED := by
  intro fuel
  induction fuel with
  | zero =>
    intro current last r h
    unfold find_loop at h
    split at h
    · cases h; simp
    · cases h
  | succ f ih =>
    intro current last r h
    unfold find_loop at h
    split at h
    · cases h; simp
    · split at h
      · cases h
      · split at h
        · cases h
        · split at h
          · cases h; simp
          · exact ih _ _ _ h

/-- C9: `find_good_or_last` reports `BSR_CORRUPTED` when the start is `NULL`, and only then;
`memalloc` with a `NULL` heap start returns `NULL` and leaves the whole state as it
was: no header is changed and the page source is not called. -/
theorem C9_corrupted_exactly_on_null_start (P : Params) (fuel : Nat) (m : Mem)
    (start sz : Nat) (s : State) (query : Nat) :
    (find_good_or_last fuel m 0 sz = .ok ⟨.BSR_CORRUPTED, 0⟩) ∧
    (∀ r, find_good_or_last fuel m start sz = .ok r →
      (r.type = .BSR_CORRUPTED ↔ start = 0)) ∧
    memalloc P fuel s query 0 = .ok (0, s) := by
  refine ⟨by simp [find_good_or_last], ?_,
    by simp [memalloc, try_memalloc_existing, find_good_or_last]⟩
  intro r h
  unfold find_good_or_last at h
  split at h
  · rename_i h0
    cases h
    simp [h0]
  · rename_i h0
    have := find_loop_type m start sz _ _ _ _ h
    simp [this, h0]

/-- C5: when the block at `b` has no successor, or is allocated, or its successor is
allocated, or its successor does not start right after the contents of `b`,
`try_merge_with_next(b)` returns false and leaves the memory as it was.  (A successor, when
there is one, holds a header.) -/
theorem C5_no_false_merge (P : Params) (m : Mem) (b : Nat) (hb : block_header)
    (hread : m b = some hb)
    (hsucc : hb.next = 0 ∨ (m hb.next).isSome = true)
    (hno : hb.next = 0 ∨ hb.is_free = false ∨
      (∃ n, m hb.next = some n ∧ n.is_free = false) ∨
      hb.next ≠ b + P.H + hb.capacity) :
    try_merge_with_next P m b = .ok (false, m) := by
  unfold try_merge_with_next
  simp only [hread]
  by_cases h0 : hb.next = 0
  · simp [h0]
  · simp only [h0, if_false]
    by_cases hf : hb.is_free = false
    · simp [hf]
    · simp only [hf, if_false]
      rcases hsucc with h | h
      · exact absurd h h0
      · obtain ⟨n, hn⟩ := Option.isSome_iff_exists.mp h
        simp only [hn]
        have hmg : mergeable P b hb hb.next n = false := by
          rcases hno with h | h | ⟨n', hn', hfree⟩ | h
          · exact absurd h h0
          · exact absurd h hf
          · rw [hn] at hn'; cases hn'
            simp [mergeable, hfree]
          · simp [mergeable, blocks_continuous, block_after, h]
        simp [hmg]

/-- C5 at a concrete heap: the block at 100 is free with capacity 50 and its successor at 200
does not start at `100 + 17 + 50`. -/
theorem C5_no_false_merge_witness :
    try_merge_with_next stdParams
      ((Mem.empty.write 100 ⟨200, 50, true⟩).write 200 ⟨0, 30, true⟩) 100
      = .ok (false, (Mem.empty.write 100 ⟨200, 50, true⟩).write 200 ⟨0, 30, true⟩) :=
  C5_no_false_merge stdParams _ 100 ⟨200, 50, true⟩ (by decide) (by decide)
    (Or.inr (Or.inr (Or.inr (by decide))))

/-- A miss of the search loop carries `last` when nothing was visited, and otherwise a block
whose `next` is `NULL`. -/
theorem find_loop_miss (m : Mem) (block sz : Nat) :
    ∀ (fuel current last b : Nat),
      find_loop m block sz fuel current last = .ok ⟨.BSR_REACHED_END_NOT_FOUND, b⟩ →
      (current = 0 ∧ b = last) ∨ (∃ h, m b = some h ∧ h.next = 0) := by
  intro fuel
  induction fuel with
  | zero =>
    intro current last b h
    unfold find_loop at h
    split at h
    · rename_i h0
      simp only [Except.ok.injEq, block_search_result.mk.injEq, true_and] at h
      exact Or.inl ⟨h0, h.symm⟩
    · cases h
  | succ f ih =>
    intro current last b h
    unfold find_loop at h
    split at h
    · rename_i h0
      simp only [Except.ok.injEq, block_search_result.mk.injEq, true_and] at h
      exact Or.inl ⟨h0, h.symm⟩
    · split at h
      · cases h
      · split at h
        · cases h
        · rename_i c hc
          split at h
          · simp at h
          · rcases ih _ _ _ h with ⟨hn, hb⟩ | h2
            · subst hb
              exact Or.inr ⟨c, hc, hn⟩
            · exact Or.inr h2

/-- Storing again the header that is stored changes nothing. -/
theorem Mem.write_same (m : Mem) (a : Nat) (h : block_header) (hm : m a = some h) :
    m.write a h = m := by
  funext x
  unfold Mem.write
  split
  · rename_i hx; rw [hx, hm]
  · rfl

/-! ## The page source -/

theorem map_pages_fst (s : State) (a l f : Nat) :
    (map_pages s a l f).1 = s.pages.headD MAP_FAILED := by
  unfold map_pages; cases s.pages <;> rfl

theorem map_pages_mem (s : State) (a l f : Nat) : (map_pages s a l f).2.mem = s.mem := by
  unfold map_pages; cases s.pages <;> rfl

theorem map_pages_pages (s : State) (a l f : Nat) :
    (map_pages s a l f).2.pages = s.pages.tail := by
  unfold map_pages; cases s.pages <;> rfl

theorem map_pages_log (s : State) (a l f : Nat) :
    (map_pages s a l f).2.log = s.log ++ [⟨a, l, f⟩] := by
  unfold map_pages; cases s.pages <;> rfl

theorem record_heap_start_mem (s : State) (r : Nat) : (record_heap_start s r).mem = s.mem := by
  unfold record_heap_start; split <;> rfl

theorem record_heap_start_pages (s : State) (r : Nat) :
    (record_heap_start s r).pages = s.pages := by
  unfold record_heap_start; split <;> rfl

theorem record_heap_start_log (s : State) (r : Nat) :
    (record_heap_start s r).log = s.log := by
  unfold record_heap_start; split <;> rfl

/-- When the page source refuses both mappings, `alloc_region` returns `REGION_INVALID` and
stores nothing. -/
theorem alloc_region_refused (P : Params) (s : State) (addr query : Nat)
    (hp : ∀ r ∈ s.pages.take 2, r = MAP_FAILED ∨ r = 0) :
    (alloc_region P s addr query).1 = REGION_INVALID ∧
    (alloc_region P s addr query).2.mem = s.mem := by
  have h1 : s.pages.headD MAP_FAILED = MAP_FAILED ∨ s.pages.headD MAP_FAILED = 0 := by
    rcases hs : s.pages with _ | ⟨r1, t⟩
    · simp
    · rw [hs] at hp; simpa using hp r1 (by simp)
  have h2 : s.pages.tail.headD MAP_FAILED = MAP_FAILED ∨ s.pages.tail.headD MAP_FAILED = 0 := by
    rcases hs : s.pages with _ | ⟨r1, _ | ⟨r2, t⟩⟩
    · simp
    · simp
    · rw [hs] at hp; simpa using hp r2 (by simp)
  unfold alloc_region
  simp only [map_pages_fst, map_pages_mem, map_pages_pages, record_heap_start_pages,
    record_heap_start_mem, h1, h2, if_true]
  exact ⟨trivial, trivial⟩

/-- When the page source refuses both mappings, `grow_heap` from a last block returns `NULL`
and leaves every header as it was. -/
theorem grow_heap_refused (P : Params) (s : State) (last query : Nat) (l : block_header)
    (hl : s.mem last = some l) (hnext : l.next = 0)
    (hp : ∀ r ∈ s.pages.take 2, r = MAP_FAILED ∨ r = 0) :
    ∃ s1, grow_heap P s last query = .ok (0, s1) ∧ s1.mem = s.mem := by
  obtain ⟨hr, hm⟩ := alloc_region_refused P s (last + size_from_capacity P l.capacity) query hp
  have hw : s.mem.write last { l with next := 0 } = s.mem := by
    apply Mem.write_same
    rw [hl, ← hnext]
  unfold grow_heap
  simp only [hl, hm, hr, REGION_INVALID, hw]
  simp [try_merge_with_next, hl, hnext]

/-- C8: when the search over the chain misses and the page source refuses both mappings,
`_malloc` returns `NULL` and every stored header is as it was before the call. -/
theorem C8_failed_growth_is_atomic (P : Params) (fuel : Nat) (s : State) (query last : Nat)
    (hmiss : find_good_or_last fuel s.mem P.START_HEAP (size_max query BLOCK_MIN_CAPACITY)
      = .ok ⟨.BSR_REACHED_END_NOT_FOUND, last⟩)
    (hp : ∀ r ∈ s.pages.take 2, r = MAP_FAILED ∨ r = 0) :
    ∃ s1, _malloc P fuel s query = .ok (0, s1) ∧ s1.mem = s.mem := by
  have hlast : ∃ l, s.mem last = some l ∧ l.next = 0 := by
    unfold find_good_or_last at hmiss
    split at hmiss
    · simp at hmiss
    · rename_i h0
      rcases find_loop_miss _ _ _ _ _ _ _ hmiss with ⟨h, _⟩ | h
      · exact absurd h h0
      · exact h
  obtain ⟨l, hl, hnext⟩ := hlast
  obtain ⟨s1, hg, hm⟩ :=
    grow_heap_refused P s last (size_max query BLOCK_MIN_CAPACITY) l hl hnext hp
  refine ⟨s1, ?_, hm⟩
  simp [_malloc, memalloc, try_memalloc_existing, hmiss, hg]

/-- C8 at a concrete heap: one allocated block at `START_HEAP` and a page source that refuses
every mapping. -/
theorem C8_failed_growth_is_atomic_witness :
    ∃ s1, _malloc stdParams 4
        { mem := Mem.empty.write stdParams.START_HEAP ⟨0, 8175, false⟩, HEAP_START := 0,
          pages := [], log := [], wrapped := false } 100 = .ok (0, s1) ∧
      s1.mem = Mem.empty.write stdParams.START_HEAP ⟨0, 8175, false⟩ :=
  C8_failed_growth_is_atomic stdParams 4 _ 100 stdParams.START_HEAP (by rfl) (by simp)

/-! ## The splitter -/

theorem size_max_eq (a b : Nat) : size_max a b = max a b := by
  unfold size_max
  split <;> omega

theorem is_chain_cons (m : Mem) (a x : Nat) (xs : List Nat) :
    is_chain m a (x :: xs) = true ↔
      a = x ∧ a ≠ 0 ∧ ∃ h, m a = some h ∧ is_chain m h.next xs = true := by
  simp only [is_chain]
  cases hm : m a with
  | none => simp
  | some h => simp [and_assoc]

/-- A store outside a chain leaves it a chain. -/
theorem is_chain_write (m : Mem) (b : Nat) (hb : block_header) :
    ∀ (l : List Nat) (a : Nat), b ∉ l → is_chain m a l = true →
      is_chain (m.write b hb) a l = true := by
  intro l
  induction l with
  | nil => intro a _ h; simpa [is_chain] using h
  | cons x xs ih =>
    intro a hmem h
    rw [is_chain_cons] at h ⊢
    obtain ⟨hax, ha0, h1, hm, hrest⟩ := h
    have hne : a ≠ b := by
      rintro rfl
      exact hmem (by simp [hax])
    exact ⟨hax, ha0, h1, by simp [Mem.write, hne, hm],
      ih _ (fun hin => hmem (by simp [hin])) hrest⟩

/-- The loop of `_free` ends on a finite chain without repetition: it returns, the block is
still free, and no forward merge is possible from it any more. -/
theorem free_loop_converges (P : Params) (b : Nat) :
    ∀ (rest : List Nat) (s : State) (hb : block_header) (fuel : Nat),
      s.mem b = some hb → hb.is_free = true → is_chain s.mem hb.next rest = true →
      b ∉ rest → rest.length + 1 ≤ fuel →
      ∃ s1 h, free_loop P b fuel s = .ok s1 ∧ s1.mem b = some h ∧ h.is_free = true ∧
        (h.next = 0 ∨ ∃ n, s1.mem h.next = some n ∧
          (n.is_free = false ∨ h.next ≠ b + P.H + h.capacity)) := by
  intro rest
  induction rest with
  | nil =>
    intro s hb fuel hm hfree hch _ hfuel
    obtain ⟨f, rfl⟩ : ∃ f, fuel = f + 1 := ⟨fuel - 1, by omega⟩
    have h0 : hb.next = 0 := by simpa [is_chain] using hch
    refine ⟨s, hb, ?_, hm, hfree, Or.inl h0⟩
    simp [free_loop, try_merge_with_next, hm, h0]
  | cons n rest ih =>
    intro s hb fuel hm hfree hch hmem hfuel
    obtain ⟨f, rfl⟩ : ∃ f, fuel = f + 1 := ⟨fuel - 1, by omega⟩
    rw [is_chain_cons] at hch
    obtain ⟨hnx, hn0, hn, hmn, hrest⟩ := hch
    have hnb : hb.next ≠ b := by
      intro h
      exact hmem (by simp [← hnx, h])
    have hbrest : b ∉ rest := fun hin => hmem (by simp [hin])
    by_cases hmg : mergeable P b hb hb.next hn = true
    · -- the merge happens, the chain loses its second block
      have hstep : try_merge_with_next P s.mem b = .ok (true,
          (s.mem.write b { hb with
            capacity := size_add hb.capacity (size_from_capacity P hn.capacity) }).write b
            { next := hn.next,
              capacity := size_add hb.capacity (size_from_capacity P hn.capacity),
              is_free := hb.is_free }) := by
        simp [try_merge_with_next, hm, hn0, hfree, hmn, hmg, Mem.write, hnb]
      have hlen : rest.length + 1 ≤ f := by simp at hfuel; omega
      have := ih
        { s with
          mem := (s.mem.write b { hb with
            capacity := size_add hb.capacity (size_from_capacity P hn.capacity) }).write b
            { next := hn.next,
              capacity := size_add hb.capacity (size_from_capacity P hn.capacity),
              is_free := hb.is_free },
          wrapped := s.wrapped || merge_wraps P s.mem b }
        { next := hn.next,
          capacity := size_add hb.capacity (size_from_capacity P hn.capacity),
          is_free := hb.is_free } f (by simp [Mem.write]) hfree
        (is_chain_write _ _ _ _ _ hbrest (is_chain_write _ _ _ _ _ hbrest hrest)) hbrest hlen
      obtain ⟨s1, h, hrun, hres⟩ := this
      refine ⟨s1, h, ?_, hres⟩
      rw [free_loop, hstep]
      exact hrun
    · -- no merge: the loop stops here
      have hstep : try_merge_with_next P s.mem b = .ok (false, s.mem) := by
        simp [try_merge_with_next, hm, hn0, hfree, hmn, hmg]
      refine ⟨s, hb, ?_, hm, hfree, Or.inr ⟨hn, hmn, ?_⟩⟩
      · simp [free_loop, hstep]
      · simp only [mergeable, blocks_continuous, block_after, hfree, Bool.true_and,
          Bool.and_eq_true, beq_iff_eq, not_and, Bool.not_eq_true] at hmg
        by_cases hnf : hn.is_free = false
        · exact Or.inl hnf
        · exact Or.inr (hmg (by simpa using hnf))

/-- C6: on a finite chain without repetition that starts at the block `b`, `_free(b + H)`
returns; afterwards the block at `b` is free and no forward merge is possible from it: it
has no successor, or its successor is allocated, or its successor does not start right
after its contents. -/
theorem C6_release_converges (P : Params) (fuel : Nat) (s : State) (b : Nat) (l : List Nat)
    (hb0 : b ≠ 0) (hchain : is_chain s.mem b l = true) (hacyclic : l.Nodup)
    (hfuel : l.length ≤ fuel) :
    ∃ s1 h, _free P fuel s (b + P.H) = .ok s1 ∧ s1.mem b = some h ∧ h.is_free = true ∧
      (h.next = 0 ∨ ∃ n, s1.mem h.next = some n ∧
        (n.is_free = false ∨ h.next ≠ b + P.H + h.capacity)) := by
  cases l with
  | nil => simp [is_chain] at hchain; exact absurd hchain hb0
  | cons x rest =>
    rw [is_chain_cons] at hchain
    obtain ⟨hx, _, hb, hm, hrest⟩ := hchain
    subst hx
    have hbrest : b ∉ rest := (List.nodup_cons.mp hacyclic).1
    have := free_loop_converges P b rest
      { s with mem := s.mem.write b { hb with is_free := true } }
      { hb with is_free := true } fuel (by simp [Mem.write]) rfl
      (is_chain_write _ _ _ _ _ hbrest hrest) hbrest (by simpa using hfuel)
    obtain ⟨s1, h, hrun, hres⟩ := this
    refine ⟨s1, h, ?_, hres⟩
    have hp : b + P.H ≠ 0 := by omega
    simp only [_free, hp, if_false, block_get_header, Nat.add_sub_cancel, hm]
    exact hrun

/-- C6 on scenario 1: the release of the first pointer, with the chain of two blocks. -/
theorem C6_release_converges_witness :
    ∃ s1 h, _free stdParams 2 sc1_s2 (stdParams.START_HEAP + stdParams.H) = .ok s1 ∧
      s1.mem stdParams.START_HEAP = some h ∧ h.is_free = true ∧
      (h.next = 0 ∨ ∃ n, s1.mem h.next = some n ∧
        (n.is_free = false ∨ h.next ≠ stdParams.START_HEAP + stdParams.H + h.capacity)) :=
  C6_release_converges stdParams 2 sc1_s2 stdParams.START_HEAP
    [stdParams.START_HEAP, stdParams.START_HEAP + 8151] (by decide) (by decide) (by decide)
    (by decide)

/-! ## Claims C11 to C20 -/

/-- C11, the code against the claim: when the page source refuses every mapping, the first
`heap_init(4096)` returns `NULL` but leaves `HEAP_START` set, to `MAP_FAILED`; and in
scenario 1, where the first mapping is refused and the region lands at `START_HEAP`,
`heap_init` returns `START_HEAP` while `HEAP_START` is `MAP_FAILED`. -/
theorem C11_heap_start_recorded_on_failure :
    sc4_init.1 = 0 ∧ sc4_init.2.HEAP_START = MAP_FAILED ∧ MAP_FAILED ≠ 0 ∧
    (heap_init stdParams sc1_s0 4096).1 = stdParams.START_HEAP ∧
    sc1_s1.HEAP_START = MAP_FAILED ∧ MAP_FAILED ≠ stdParams.START_HEAP := by
  decide

/-- C12, the code against the claim: in the chain of scenario 1 after `_malloc(10)` (an
allocated block of capacity 8175, then a free block of capacity 8134) the search for 8150
bytes reports the second block as found, although its capacity is below 8150; in the chain
of scenario 2 after the release, the free block at `sc2_R` has capacity 20463, and the search
for 20000 bytes reports that nothing was found. -/
theorem C12_search_tests_start_capacity :
    is_chain sc1_s2.mem stdParams.START_HEAP
      [stdParams.START_HEAP, stdParams.START_HEAP + 8151] = true ∧
    sc1_s2.mem (stdParams.START_HEAP + 8151) = some ⟨0, 8134, true⟩ ∧
    find_good_or_last 8 sc1_s2.mem stdParams.START_HEAP 8150
      = .ok ⟨.BSR_FOUND_GOOD_BLOCK, stdParams.START_HEAP + 8151⟩ ∧
    is_chain sc2_s4.mem stdParams.START_HEAP
      [stdParams.START_HEAP, stdParams.START_HEAP + 8151, sc2_R, sc2_R + 463] = true ∧
    sc2_s4.mem sc2_R = some ⟨sc2_R + 463, 20463, true⟩ ∧
    find_good_or_last 8 sc2_s4.mem stdParams.START_HEAP 20000
      = .ok ⟨.BSR_REACHED_END_NOT_FOUND, sc2_R + 463⟩ := by
  refine ⟨by decide, by decide, by rfl, by decide, by decide, by rfl⟩

/-- C16, the code against the claim: after `heap_init(4096)`, the two calls `_malloc(5000)`
return `START_HEAP + 17` and `START_HEAP + 3192`, the page source is not called, and the
two ranges of 5000 bytes are not disjoint. -/
theorem C16_live_allocations_overlap :
    ptr_of sc5_first = some (stdParams.START_HEAP + 17) ∧
    ptr_of sc5_second = some (stdParams.START_HEAP + 3192) ∧
    (state_of sc5_s2 sc5_second).log = sc1_s1.log ∧
    ¬ ranges_disjoint (stdParams.START_HEAP + 17) 5000 (stdParams.START_HEAP + 3192) 5000 := by
  simp only [ranges_disjoint]
  decide

/-- C17, the code against the claim: `split_if_too_big(block, 10)` on a free block of
capacity 8175 returns true and stores the tail at `block + 8165`; the head still has
capacity 8175, so the address after its contents is `block + 8192`, not the address of the
tail, and the tail, of capacity 8148, ends at `block + 16330`, beyond the end of the block
that was split. -/
theorem C17_split_tail_not_after_head :
    flag_of sc3_split = some true ∧
    mem_of sc3_mem sc3_split stdParams.START_HEAP
      = some ⟨stdParams.START_HEAP + 8165, 8175, true⟩ ∧
    mem_of sc3_mem sc3_split (stdParams.START_HEAP + 8165) = some ⟨0, 8148, true⟩ ∧
    block_after stdParams stdParams.START_HEAP ⟨stdParams.START_HEAP + 8165, 8175, true⟩
      ≠ stdParams.START_HEAP + 8165 ∧
    block_after stdParams (stdParams.START_HEAP + 8165) ⟨0, 8148, true⟩
      ≠ block_after stdParams stdParams.START_HEAP ⟨0, 8175, true⟩ := by
  decide

/-- C19: whenever `split_if_too_big(block, r)` returns true on a block whose capacity leaves
room in `size_t` for a header and two minimum blocks, the tail is a block other than `block`,
it is free, its `next` is the `next` that `block` had, the `next` of `block` is the tail, and
the `is_free` flag and the capacity of `block` are as they were. -/
theorem C19_split_linking (P : Params) (m : Mem) (block r : Nat) (b : block_header) (m1 : Mem)
    (hb : m block = some b)
    (hcap : b.capacity + P.H + 2 * BLOCK_MIN_CAPACITY < SIZE_MOD)
    (hs : split_if_too_big P m block r = .ok (true, m1)) :
    ∃ t tail, t ≠ block ∧
      m1 block = some ⟨t, b.capacity, b.is_free⟩ ∧
      m1 t = some tail ∧ tail.is_free = true ∧ tail.next = b.next := by
  unfold split_if_too_big at hs
  simp only [hb] at hs
  by_cases hsp : block_splittable P b (size_max BLOCK_MIN_CAPACITY r) = true
  · simp only [hsp, if_true] at hs
    have hne : split_block_addr block
        (size_sub (size_from_capacity P b.capacity) (size_add r P.H)) ≠ block := by
      simp only [block_splittable, Bool.and_eq_true, decide_eq_true_eq, size_max_eq,
        size_add] at hsp
      have h2 := hsp.2
      clear hsp hs
      simp only [split_block_addr, size_sub, size_from_capacity, size_add, SIZE_MOD,
        BLOCK_MIN_CAPACITY] at h2 hcap ⊢
      omega
    have hrd : block_init P m
        (split_block_addr block
          (size_sub (size_from_capacity P b.capacity) (size_add r P.H)))
        (size_sub (size_from_capacity P b.capacity) (size_add r P.H)) b.next block
        = some b := by
      simp only [block_init, Mem.write, hb]
      split
      · rename_i h; exact absurd h.symm hne
      · rfl
    simp only [hrd, Except.ok.injEq, Prod.mk.injEq, true_and] at hs
    refine ⟨_, ⟨b.next, capacity_from_size P
      (size_sub (size_from_capacity P b.capacity) (size_add r P.H)), true⟩, hne, ?_, ?_,
      rfl, rfl⟩
    · rw [← hs]; simp [Mem.write]
    · rw [← hs]; simp [Mem.write, block_init, hne]
  · simp [hsp] at hs

/-- C19 at scenario 3: the split of the free block of capacity 8175 for the request 10. -/
theorem C19_split_linking_witness :
    ∃ t tail, t ≠ stdParams.START_HEAP ∧
      mem_of sc3_mem sc3_split stdParams.START_HEAP = some ⟨t, 8175, true⟩ ∧
      mem_of sc3_mem sc3_split t = some tail ∧ tail.is_free = true ∧ tail.next = 0 :=
  C19_split_linking stdParams sc3_mem stdParams.START_HEAP 10 ⟨0, 8175, true⟩
    (mem_of sc3_mem sc3_split) (by decide) (by decide) (by rfl)

/-- A second store at the same address replaces the first. -/
theorem Mem.write_write (m : Mem) (a : Nat) (h1 h2 : block_header) :
    (m.write a h1).write a h2 = m.write a h2 := by
  funext x
  unfold Mem.write
  split <;> rfl

/-! ## The search on a chain -/

/-- On a chain the loop of the search returns when the fuel covers the chain, and a miss
carries the argument `last` when the chain is empty, else a block of the chain whose `next`
is `NULL`. -/
theorem find_loop_on_chain (m : Mem) (block sz : Nat) (hb : block_header)
    (hblock : m block = some hb) :
    ∀ (l : List Nat) (fuel current last : Nat),
      is_chain m current l = true → l.length ≤ fuel →
      ∃ r, find_loop m block sz fuel current last = .ok r ∧
        r.type ≠ .BSR_CORRUPTED ∧
        (r.type = .BSR_FOUND_GOOD_BLOCK → r.block ∈ l) ∧
        (r.type = .BSR_REACHED_END_NOT_FOUND →
          (l = [] ∧ r.block = last) ∨
          (l.getLast? = some r.block ∧ ∃ h, m r.block = some h ∧ h.next = 0)) := by
  intro l
  induction l with
  | nil =>
    intro fuel current last hch _
    have h0 : current = 0 := by simpa [is_chain] using hch
    refine ⟨⟨.BSR_REACHED_END_NOT_FOUND, last⟩, ?_, by simp, by simp, by simp⟩
    cases fuel <;> simp [find_loop, h0]
  | cons x xs ih =>
    intro fuel current last hch hfuel
    rw [is_chain_cons] at hch
    obtain ⟨hx, hc0, c, hc, hrest⟩ := hch
    subst hx
    obtain ⟨f, rfl⟩ : ∃ f, fuel = f + 1 := ⟨fuel - 1, by simp at hfuel; omega⟩
    have hlen : xs.length ≤ f := by simp at hfuel; omega
    unfold find_loop
    simp only [hc0, if_false, hblock, hc]
    by_cases hgood : (block_is_big_enough sz hb && c.is_free) = true
    · simp only [hgood, if_true]
      exact ⟨_, rfl, by simp, by simp, by simp⟩
    · simp only [hgood, Bool.false_eq_true, if_false]
      obtain ⟨r, hr, hty, hfound, hmiss⟩ := ih f c.next current hrest hlen
      refine ⟨r, hr, hty, fun h => List.mem_cons_of_mem _ (hfound h), fun h => ?_⟩
      rcases hmiss h with ⟨hnil, hlast⟩ | ⟨hlast, hh⟩
      · subst hnil
        have hn0 : c.next = 0 := by simpa [is_chain] using hrest
        exact Or.inr ⟨by simp [hlast], c, by rw [hlast]; exact hc, hn0⟩
      · refine Or.inr ⟨?_, hh⟩
        cases xs with
        | nil => simp at hlast
        | cons y ys => simpa [List.getLast?_cons_cons] using hlast

/-- C20: on a finite chain that starts at a block `start` other than `NULL`,
`find_good_or_last` returns when the fuel covers the chain (it is a function of the memory
and stores nothing), it never reports corruption, and whenever it reports
`BSR_REACHED_END_NOT_FOUND` with the block `b`, `b` is the last block of the chain, hence
reachable from `start`, and the `next` of `b` is `NULL`. -/
theorem C20_search_miss_carries_last_block (m : Mem) (start sz fuel : Nat) (l : List Nat)
    (hstart : start ≠ 0) (hchain : is_chain m start l = true) (hfuel : l.length ≤ fuel) :
    ∃ r, find_good_or_last fuel m start sz = .ok r ∧
      r.type ≠ .BSR_CORRUPTED ∧
      (r.type = .BSR_REACHED_END_NOT_FOUND →
        r.block ∈ l ∧ l.getLast? = some r.block ∧
          ∃ h, m r.block = some h ∧ h.next = 0) := by
  cases l with
  | nil => simp [is_chain] at hchain; exact absurd hchain hstart
  | cons x xs =>
    have hch := hchain
    rw [is_chain_cons] at hch
    obtain ⟨_, _, hb, hm, _⟩ := hch
    obtain ⟨r, hr, hty, _, hmiss⟩ :=
      find_loop_on_chain m start sz hb hm (x :: xs) fuel start 0 hchain hfuel
    refine ⟨r, by simp [find_good_or_last, hstart, hr], hty, fun h => ?_⟩
    rcases hmiss h with ⟨hnil, _⟩ | ⟨hlast, hh⟩
    · cases hnil
    · exact ⟨List.mem_of_mem_getLast? (Option.mem_def.mpr hlast), hlast, hh⟩

/-- C20 on scenario 1: the chain of two blocks after `_malloc(10)`. -/
theorem C20_search_miss_carries_last_block_witness :
    ∃ r, find_good_or_last 2 sc1_s2.mem stdParams.START_HEAP 9000 = .ok r ∧
      r.type ≠ .BSR_CORRUPTED ∧
      (r.type = .BSR_REACHED_END_NOT_FOUND →
        r.block ∈ [stdParams.START_HEAP, stdParams.START_HEAP + 8151] ∧
        [stdParams.START_HEAP, stdParams.START_HEAP + 8151].getLast? = some r.block ∧
        ∃ h, sc1_s2.mem r.block = some h ∧ h.next = 0) :=
  C20_search_miss_carries_last_block sc1_s2.mem stdParams.START_HEAP 9000 2
    [stdParams.START_HEAP, stdParams.START_HEAP + 8151] (by decide) (by decide) (by decide)

/-! ## Region sizes -/

/-- The count of pages is the quotient rounded up. -/
theorem pages_count_ceil (p q : Nat) (hp : 0 < p) :
    q / p + (if q % p > 0 then 1 else 0) = (q + p - 1) / p := by
  have h1 := Nat.div_add_mod q p
  have h2 := Nat.mod_lt q hp
  have e1 : (q / p + 1) * p = p * (q / p) + p := by ring
  have e0 : q / p * p = p * (q / p) := Nat.mul_comm _ _
  symm
  split
  · apply Nat.div_eq_of_lt_le
    · rw [e1]; omega
    · rw [show (q / p + 1).succ * p = p * (q / p) + p + p by
        rw [Nat.succ_mul, e1]]
      omega
  · apply Nat.div_eq_of_lt_le
    · rw [Nat.add_zero, e0]; omega
    · rw [Nat.add_zero, show (q / p).succ * p = p * (q / p) + p by rw [Nat.succ_mul, e0]]
      omega

/-- Absent overflow `round_pages` is the request rounded up to whole pages. -/
theorem round_pages_eq (P : Params) (q : Nat) (hp : 0 < P.pagesize)
    (hov : (q + P.pagesize - 1) / P.pagesize * P.pagesize < SIZE_MOD) :
    round_pages P q = (q + P.pagesize - 1) / P.pagesize * P.pagesize := by
  have hle : (q + P.pagesize - 1) / P.pagesize
      ≤ (q + P.pagesize - 1) / P.pagesize * P.pagesize := Nat.le_mul_of_pos_right _ hp
  unfold round_pages pages_count size_mul size_add
  rw [pages_count_ceil _ _ hp, Nat.mod_eq_of_lt (lt_of_le_of_lt hle hov), Nat.mul_comm,
    Nat.mod_eq_of_lt hov]

/-- The request is at most the request rounded up to whole pages. -/
theorem le_round_up (p q : Nat) (hp : 0 < p) : q ≤ (q + p - 1) / p * p := by
  rw [← pages_count_ceil p q hp]
  have h1 := Nat.div_add_mod q p
  have h2 := Nat.mod_lt q hp
  have e0 : q / p * p = p * (q / p) := Nat.mul_comm _ _
  split
  · rw [Nat.add_mul, e0]; omega
  · rw [Nat.add_zero, e0]; omega

/-- C15: absent overflow and for a page size above 0, `region_actual_size(q)` is the
maximum of `q` rounded up to whole pages and of `REGION_MIN_SIZE`; it is at least `q` and at
least `REGION_MIN_SIZE`, a multiple of the page size whenever `REGION_MIN_SIZE` is one, and
every valid region `alloc_region` returns has this size and starts with a free block of
capacity `size - H` without successor.  (`H ≤ REGION_MIN_SIZE < 2 ^ 64`.) -/
theorem C15_region_size_rounding (P : Params) (q : Nat) (hp : 0 < P.pagesize)
    (hov : (q + P.pagesize - 1) / P.pagesize * P.pagesize < SIZE_MOD)
    (hH : P.H ≤ P.REGION_MIN_SIZE) (hR : P.REGION_MIN_SIZE < SIZE_MOD) :
    region_actual_size P q
      = max ((q + P.pagesize - 1) / P.pagesize * P.pagesize) P.REGION_MIN_SIZE ∧
    q ≤ region_actual_size P q ∧
    P.REGION_MIN_SIZE ≤ region_actual_size P q ∧
    (P.pagesize ∣ P.REGION_MIN_SIZE → P.pagesize ∣ region_actual_size P q) ∧
    (∀ s addr, region_is_invalid (alloc_region P s addr q).1 = false →
      (alloc_region P s addr q).1.size = region_actual_size P q ∧
      (alloc_region P s addr q).2.mem (alloc_region P s addr q).1.addr
        = some ⟨0, region_actual_size P q - P.H, true⟩) := by
  have heq : region_actual_size P q
      = max ((q + P.pagesize - 1) / P.pagesize * P.pagesize) P.REGION_MIN_SIZE := by
    unfold region_actual_size
    rw [size_max_eq, round_pages_eq P q hp hov]
  have hq := le_round_up P.pagesize q hp
  have hcap : capacity_from_size P (region_actual_size P q) = region_actual_size P q - P.H := by
    rw [heq]
    simp only [capacity_from_size, size_sub, SIZE_MOD] at hov hR ⊢
    omega
  refine ⟨heq, by rw [heq]; omega, by rw [heq]; omega, ?_, ?_⟩
  · intro hdvd
    rw [heq]
    rcases Nat.le_total ((q + P.pagesize - 1) / P.pagesize * P.pagesize) P.REGION_MIN_SIZE
      with h | h
    · rw [Nat.max_eq_right h]; exact hdvd
    · rw [Nat.max_eq_left h]; exact Nat.dvd_mul_left _ _
  · intro s addr
    unfold alloc_region
    simp only
    split
    · split
      · intro h; simp [region_is_invalid, REGION_INVALID] at h
      · intro _
        exact ⟨rfl, by simp [block_init, Mem.write, hcap]⟩
    · intro _
      exact ⟨rfl, by simp [block_init, Mem.write, hcap]⟩

/-- C15 at the usual parameters, for a request of 20000 bytes. -/
theorem C15_region_size_rounding_witness :
    region_actual_size stdParams 20000
      = max ((20000 + stdParams.pagesize - 1) / stdParams.pagesize * stdParams.pagesize)
          stdParams.REGION_MIN_SIZE ∧
    20000 ≤ region_actual_size stdParams 20000 ∧
    stdParams.REGION_MIN_SIZE ≤ region_actual_size stdParams 20000 ∧
    (stdParams.pagesize ∣ stdParams.REGION_MIN_SIZE →
      stdParams.pagesize ∣ region_actual_size stdParams 20000) ∧
    (∀ s addr, region_is_invalid (alloc_region stdParams s addr 20000).1 = false →
      (alloc_region stdParams s addr 20000).1.size = region_actual_size stdParams 20000 ∧
      (alloc_region stdParams s addr 20000).2.mem (alloc_region stdParams s addr 20000).1.addr
        = some ⟨0, region_actual_size stdParams 20000 - stdParams.H, true⟩) :=
  C15_region_size_rounding stdParams 20000 (by decide) (by decide) (by decide) (by decide)

/-! ## Heap growth -/

/-- When the page source places the region at `a`, `alloc_region` returns a region at `a`,
stores its first block there, and its first call of the page source asks for the size of
the region at the hint, with `MAP_FIXED_NOREPLACE`. -/
theorem alloc_region_lands (P : Params) (s : State) (addr q a : Nat)
    (h : landing s.pages = some a) :
    (alloc_region P s addr q).1.addr = a ∧ a ≠ 0 ∧
    (alloc_region P s addr q).2.mem = block_init P s.mem a (region_actual_size P q) 0 ∧
    ∃ more, (alloc_region P s addr q).2.log
      = s.log ++ ⟨addr, region_actual_size P q, MAP_FIXED_NOREPLACE⟩ :: more := by
  unfold landing at h
  unfold alloc_region
  simp only [map_pages_fst, map_pages_mem, map_pages_pages, map_pages_log,
    record_heap_start_pages, record_heap_start_mem, record_heap_start_log]
  by_cases h1 : s.pages.headD MAP_FAILED = MAP_FAILED ∨ s.pages.headD MAP_FAILED = 0
  · simp only [h1, if_true] at h ⊢
    by_cases h2 : s.pages.tail.headD MAP_FAILED = MAP_FAILED ∨ s.pages.tail.headD MAP_FAILED = 0
    · rw [if_pos h2] at h; cases h
    · simp only [h2, if_false, Option.some.injEq] at h ⊢
      subst h
      refine ⟨rfl, fun h0 => h2 (Or.inr h0), rfl,
        ⟨[⟨addr, region_actual_size P q, 0⟩], ?_⟩⟩
      simp
  · simp only [h1, if_false, Option.some.injEq] at h ⊢
    subst h
    exact ⟨rfl, fun h0 => h1 (Or.inr h0), rfl, ⟨[], rfl⟩⟩

/-- The merge that happens: a free block, its free successor right after its contents. -/
theorem try_merge_with_next_merges (P : Params) (m : Mem) (b nx cap : Nat) (n : block_header)
    (hb : m b = some ⟨nx, cap, true⟩) (h0 : nx ≠ 0) (hne : nx ≠ b) (hn : m nx = some n)
    (hfree : n.is_free = true) (hat : nx = b + P.H + cap) :
    try_merge_with_next P m b = .ok (true,
      m.write b ⟨n.next, size_add cap (size_from_capacity P n.capacity), true⟩) := by
  have hmg : mergeable P b ⟨nx, cap, true⟩ nx n = true := by
    simp [mergeable, blocks_continuous, block_after, hfree, ← hat]
  unfold try_merge_with_next
  simp only [hb, h0, if_false, Bool.true_eq_false, hn, hmg, if_true]
  have h1 : (m.write b ⟨nx, size_add cap (size_from_capacity P n.capacity), true⟩) b
      = some ⟨nx, size_add cap (size_from_capacity P n.capacity), true⟩ := by
    simp [Mem.write]
  have h2 : (m.write b ⟨nx, size_add cap (size_from_capacity P n.capacity), true⟩) nx
      = some n := by
    simp [Mem.write, hne, hn]
  simp only [h1, h2, Mem.write_write]

/-- The merge that does not happen: the block is allocated, or its successor does not start
right after its contents. -/
theorem try_merge_with_next_refuses (P : Params) (m : Mem) (b nx cap : Nat) (fr : Bool)
    (n : block_header) (hb : m b = some ⟨nx, cap, fr⟩) (hn : m nx = some n)
    (hno : fr = false ∨ nx ≠ b + P.H + cap) :
    try_merge_with_next P m b = .ok (false, m) := by
  unfold try_merge_with_next
  simp only [hb]
  by_cases h0 : nx = 0
  · simp [h0]
  · cases fr with
    | false => simp [h0]
    | true =>
      have hmg : mergeable P b ⟨nx, cap, true⟩ nx n = false := by
        rcases hno with h | h
        · cases h
        · simp [mergeable, blocks_continuous, block_after, h]
      simp [h0, hn, hmg]

/-- C14: for a last block `last` and a page source that places the new region at `a`, away
from the header of `last`, `grow_heap(last, n)` returns; its first call of the page source
asks for the region at the address after the contents of `last`; when the region lands
there and `last` is free it returns `last`, now free with the capacity increased by the
size of the region and without successor; otherwise it returns the new block at `a`, free,
of capacity `size - H` and without successor, and `last` has this block as its `next` and
its capacity and `is_free` as before.  (Sizes stay within `size_t`.) -/
theorem C14_grow_heap_result (P : Params) (s : State) (last query a : Nat) (l : block_header)
    (hl : s.mem last = some l) (hnext : l.next = 0)
    (hland : landing s.pages = some a) (hfresh : a ≠ last)
    (hH : P.H ≤ P.REGION_MIN_SIZE) (hR : P.REGION_MIN_SIZE < SIZE_MOD)
    (hcap : l.capacity + P.H + region_actual_size P query < SIZE_MOD) :
    ∃ p s1, grow_heap P s last query = .ok (p, s1) ∧
      (∃ more, s1.log = s.log ++
        ⟨last + P.H + l.capacity, region_actual_size P query, MAP_FIXED_NOREPLACE⟩ :: more) ∧
      (a = last + P.H + l.capacity ∧ l.is_free = true →
        p = last ∧
        s1.mem last = some ⟨0, l.capacity + region_actual_size P query, true⟩) ∧
      (¬ (a = last + P.H + l.capacity ∧ l.is_free = true) →
        p = a ∧
        s1.mem a = some ⟨0, region_actual_size P query - P.H, true⟩ ∧
        s1.mem last = some ⟨a, l.capacity, l.is_free⟩) := by
  obtain ⟨nx, cap, fr⟩ := l
  simp only at hnext hcap ⊢
  subst hnext
  have hsize : size_from_capacity P cap = cap + P.H := by
    simp only [size_from_capacity, size_add, SIZE_MOD] at hcap ⊢
    omega
  have hhint : last + size_from_capacity P cap = last + P.H + cap := by
    rw [hsize]; omega
  have hRle : P.REGION_MIN_SIZE ≤ region_actual_size P query := by
    unfold region_actual_size; rw [size_max_eq]; omega
  have hcfs : capacity_from_size P (region_actual_size P query)
      = region_actual_size P query - P.H := by
    simp only [capacity_from_size, size_sub, SIZE_MOD] at hcap hR ⊢
    omega
  obtain ⟨haddr, ha0, hmem, more, hlog⟩ :=
    alloc_region_lands P s (last + size_from_capacity P cap) query a hland
  replace hlog : (alloc_region P s (last + size_from_capacity P cap) query).2.log
      = s.log ++
        ⟨last + P.H + cap, region_actual_size P query, MAP_FIXED_NOREPLACE⟩ :: more := by
    rw [hlog, hhint]
  have hlast1 : (alloc_region P s (last + size_from_capacity P cap) query).2.mem last
      = some ⟨0, cap, fr⟩ := by
    rw [hmem]; simp [block_init, Mem.write, hfresh.symm, hl]
  have hnew : ∀ h : block_header,
      ((alloc_region P s (last + size_from_capacity P cap) query).2.mem.write last h) a
      = some ⟨0, region_actual_size P query - P.H, true⟩ := by
    intro h
    rw [hmem]; simp [block_init, Mem.write, hfresh, hcfs]
  unfold grow_heap
  simp only [hl, hlast1, haddr]
  by_cases hm : a = last + P.H + cap ∧ fr = true
  · -- the region lands right after `last`, which is free: the two blocks are merged
    obtain ⟨hat, hfr⟩ := hm
    subst hfr
    have hsum : size_add cap (size_from_capacity P (region_actual_size P query - P.H))
        = cap + region_actual_size P query := by
      simp only [size_add, size_from_capacity, SIZE_MOD] at hcap hR ⊢
      omega
    have hmerge := try_merge_with_next_merges P
      ((alloc_region P s (last + size_from_capacity P cap) query).2.mem.write last
        ⟨a, cap, true⟩) last a cap ⟨0, region_actual_size P query - P.H, true⟩
      (by simp [Mem.write]) ha0 hfresh (hnew _) rfl hat
    simp only [hsum] at hmerge
    simp only [hmerge]
    refine ⟨_, _, rfl, ⟨more, hlog⟩, fun _ => ⟨rfl, by simp [Mem.write]⟩, fun hn => ?_⟩
    exact absurd ⟨hat, trivial⟩ hn
  · -- no merge: the new block is returned
    have hmerge := try_merge_with_next_refuses P
      ((alloc_region P s (last + size_from_capacity P cap) query).2.mem.write last
        ⟨a, cap, fr⟩) last a cap fr ⟨0, region_actual_size P query - P.H, true⟩
      (by simp [Mem.write]) (hnew _)
      (by
        cases fr with
        | false => exact Or.inl rfl
        | true => exact Or.inr (fun hc => hm ⟨hc, rfl⟩))
    simp only [hmerge]
    have hrd : ((alloc_region P s (last + size_from_capacity P cap) query).2.mem.write last
        ⟨a, cap, fr⟩) last = some ⟨a, cap, fr⟩ := by simp [Mem.write]
    simp only [hrd]
    refine ⟨_, _, rfl, ⟨more, hlog⟩, fun h => absurd h hm, fun _ => ⟨rfl, hnew _, hrd⟩⟩

/-- C14 on a fresh heap whose page source places the next region right after the first
block: the growth for a request of 100 bytes. -/
theorem C14_grow_heap_result_witness :
    ∃ p s1, grow_heap stdParams sc7_s stdParams.START_HEAP 100 = .ok (p, s1) ∧
      (∃ more, s1.log = sc7_s.log ++
        ⟨stdParams.START_HEAP + stdParams.H + (block_header.mk 0 8175 true).capacity,
          region_actual_size stdParams 100, MAP_FIXED_NOREPLACE⟩ :: more) ∧
      (stdParams.START_HEAP + 8192
          = stdParams.START_HEAP + stdParams.H + (block_header.mk 0 8175 true).capacity ∧
        (block_header.mk 0 8175 true).is_free = true →
        p = stdParams.START_HEAP ∧
        s1.mem stdParams.START_HEAP = some ⟨0,
          (block_header.mk 0 8175 true).capacity + region_actual_size stdParams 100, true⟩) ∧
      (¬ (stdParams.START_HEAP + 8192
          = stdParams.START_HEAP + stdParams.H + (block_header.mk 0 8175 true).capacity ∧
        (block_header.mk 0 8175 true).is_free = true) →
        p = stdParams.START_HEAP + 8192 ∧
        s1.mem (stdParams.START_HEAP + 8192)
          = some ⟨0, region_actual_size stdParams 100 - stdParams.H, true⟩ ∧
        s1.mem stdParams.START_HEAP = some ⟨stdParams.START_HEAP + 8192,
          (block_header.mk 0 8175 true).capacity, (block_header.mk 0 8175 true).is_free⟩) :=
  C14_grow_heap_result stdParams sc7_s stdParams.START_HEAP 100 (stdParams.START_HEAP + 8192)
    ⟨0, 8175, true⟩ (by decide) (by decide) (by decide) (by decide) (by decide) (by decide)
    (by decide)

/-! ## Claims C7 and C13 on bytes -/

/-- C7, the code against the claim: after `heap_init(4096)`, `p = _malloc(8000)` and
`_free(p)` the chain is the block at `START_HEAP` and the tail at `START_HEAP + 175`, of
capacity 158.  The call `_malloc(8008)` splits the first block again and stores the new tail
at `START_HEAP + 167`; its 17 bytes cover the first 9 bytes of the header at
`START_HEAP + 175`.  Afterwards the chain goes from `START_HEAP` to `START_HEAP + 167` to
`START_HEAP + 175`, and the block at `START_HEAP + 175` has capacity 1, below
`BLOCK_MIN_CAPACITY`. -/
theorem C7_split_breaks_capacity_floor :
    Bytes.ptr_of sc8_first = some (stdParams.START_HEAP + stdParams.H) ∧
    Bytes.val_of (Bytes.get_next sc8_s3.mem stdParams.START_HEAP)
      = some (stdParams.START_HEAP + 175) ∧
    Bytes.val_of (Bytes.get_capacity sc8_s3.mem (stdParams.START_HEAP + 175)) = some 158 ∧
    Bytes.ptr_of sc8_second = some (stdParams.START_HEAP + stdParams.H) ∧
    Bytes.val_of (Bytes.get_next sc8_s4.mem stdParams.START_HEAP)
      = some (stdParams.START_HEAP + 167) ∧
    Bytes.val_of (Bytes.get_next sc8_s4.mem (stdParams.START_HEAP + 167))
      = some (stdParams.START_HEAP + 175) ∧
    Bytes.val_of (Bytes.get_capacity sc8_s4.mem (stdParams.START_HEAP + 175)) = some 1 ∧
    ¬ (BLOCK_MIN_CAPACITY ≤ 1) := by
  decide

/-- C13, the code against the claim: in scenario 9 the search of `_malloc(20000)` misses with
the last block `b`, at `START_HEAP + 4096`, and `grow_heap` calls `try_merge_with_next(b)` in
a memory whose chain goes from `START_HEAP` to `START_HEAP + 4086` to `b` to the new region.
The header at `START_HEAP + 4086` shares bytes with the header of `b`.  The call returns
true, `b` gets the capacity `4079 + 17 + 20463` and the `next` of the new block, as claimed,
but the capacity of the block at `START_HEAP + 4086`, another block of the chain, changes
from 4415763255269 to 4069. -/
theorem C13_merge_changes_other_block :
    Bytes.val_of (Bytes.find_good_or_last 8 sc9_s5.mem stdParams.START_HEAP 20000)
      = some ⟨.BSR_REACHED_END_NOT_FOUND, stdParams.START_HEAP + 4096⟩ ∧
    Bytes.val_of (Bytes.get_next sc9_pre stdParams.START_HEAP)
      = some (stdParams.START_HEAP + 4086) ∧
    Bytes.val_of (Bytes.get_next sc9_pre (stdParams.START_HEAP + 4086))
      = some (stdParams.START_HEAP + 4096) ∧
    Bytes.val_of (Bytes.get_next sc9_pre (stdParams.START_HEAP + 4096))
      = some (stdParams.START_HEAP + 8192) ∧
    Bytes.val_of (Bytes.get_capacity sc9_pre (stdParams.START_HEAP + 4086))
      = some 4415763255269 ∧
    Bytes.flag_of sc9_merge = some true ∧
    Bytes.val_of (Bytes.get_capacity (Bytes.mem_of sc9_pre sc9_merge)
      (stdParams.START_HEAP + 4096)) = some (4079 + 17 + 20463) ∧
    Bytes.val_of (Bytes.get_next (Bytes.mem_of sc9_pre sc9_merge)
      (stdParams.START_HEAP + 4096)) = some 0 ∧
    Bytes.val_of (Bytes.get_capacity (Bytes.mem_of sc9_pre sc9_merge)
      (stdParams.START_HEAP + 4086)) = some 4069 ∧
    Bytes.ptr_of sc9_fourth = some (stdParams.START_HEAP + 4096 + stdParams.H) := by
  decide

end MemAlloc
